import Mathlib

/-!
Verification of the teams-bot interview pipeline against its specification.

Shallow embedding of the Python source under `src/python`:
* `interview_agent/checklist_state.py` — checklist state machine,
* `interview_agent/session.py` — interview session manager,
* `interview_agent/models.py` / `interview_agent/output.py` — analysis documents
  and the append-only JSON output store,
* `legionmeet_platform/routes/*.py` — route dispatch,
* `transcript_sink.py` — v1→v2 event normalization and the HTTP session
  endpoints that wrap the session manager.

Machine floats from the source are embedded as rationals; wall-clock reads
(`datetime.now`) are passed explicitly as a `now : String` argument; the
filesystem is an explicit association list from session id to file content;
Python exceptions are `Except` results.
-/

namespace TeamsBot

/-! ### Python string primitives -/

/-- Python `str.lower()` restricted to the ASCII case mapping. -/
def pyLower (s : String) : String := String.mk (s.toList.map Char.toLower)

/-- Is the character Python whitespace (`str.strip` default set, ASCII part)? -/
def isPyWs (c : Char) : Bool :=
  c = ' ' || c = '\t' || c = '\n' || c = '\r' || c = '\x0b' || c = '\x0c'

/-- Python `str.strip()`: drop leading and trailing whitespace. -/
def pyStrip (s : String) : String :=
  String.mk ((((s.toList.dropWhile isPyWs).reverse).dropWhile isPyWs).reverse)

/-- Python `s[:n]` on a string: the first `n` characters. -/
def pyTake (s : String) (n : Nat) : String := String.mk (s.toList.take n)

/-- Does the second list start with the first (character-wise)? -/
def chStartsWith : List Char → List Char → Bool
  | [], _ => true
  | _ :: _, [] => false
  | a :: as, b :: bs => a = b && chStartsWith as bs

/-- Does the second list contain the first as a contiguous run? -/
def chHasSub (needle : List Char) : List Char → Bool
  | [] => chStartsWith needle []
  | b :: bs => chStartsWith needle (b :: bs) || chHasSub needle bs

/-- Python `needle in hay` on strings (substring containment). -/
def strContains (hay needle : String) : Bool :=
  chHasSub needle.toList hay.toList

/-- Python truthiness of an `Optional[str]`: `None` and `""` are falsy. -/
def truthyStr : Option String → Bool
  | none => false
  | some s => !s.isEmpty

/-- Python `x or default` for an `Optional[str]` with a mandatory default. -/
def pyOrStr (x : Option String) (default : String) : String :=
  if truthyStr x then x.getD default else default

/-! ### Python `dict` as an insertion-ordered association list -/

/-- Python `d[k]`-style lookup returning the first (hence unique) binding. -/
def dictGet {v : Type} (d : List (String × v)) (k : String) : Option v :=
  (d.find? (fun p => p.1 = k)).map (·.2)

/-- Python `d[k] = val` assignment: replace the existing binding in place, else append.
This mirrors Python dict insertion-order semantics. -/
def dictInsert {v : Type} (d : List (String × v)) (k : String) (val : v) :
    List (String × v) :=
  match d with
  | [] => [(k, val)]
  | (k', v') :: rest =>
      if k' = k then (k, val) :: rest
      else (k', v') :: dictInsert rest k val

theorem dictGet_dictInsert_self {v : Type} (d : List (String × v)) (k : String) (val : v) :
    dictGet (dictInsert d k val) k = some val := by
  induction d with
  | nil => simp [dictGet, dictInsert]
  | cons p rest ih =>
      obtain ⟨k', v'⟩ := p
      by_cases h : k' = k
      · simp [dictGet, dictInsert, h, List.find?]
      · simpa [dictGet, dictInsert, h, List.find?] using ih

/-- Traverse a list with a fallible projection, failing on the first
`none` (models a Python loop raising `KeyError`/`ValidationError`). -/
def optionMapList {α β : Type} (f : α → Option β) : List α → Option (List β)
  | [] => some []
  | a :: as =>
      match f a, optionMapList f as with
      | some b, some bs => some (b :: bs)
      | _, _ => none

theorem dictGet_dictInsert_ne {v : Type} (d : List (String × v)) (k k' : String) (val : v)
    (h : k' ≠ k) : dictGet (dictInsert d k val) k' = dictGet d k' := by
  induction d with
  | nil => simp [dictGet, dictInsert, List.find?, Ne.symm h]
  | cons p rest ih =>
      obtain ⟨k₀, v₀⟩ := p
      by_cases hk : k₀ = k
      · subst hk
        simp [dictGet, dictInsert, List.find?, Ne.symm h]
      · by_cases hk' : k₀ = k'
        · simp [dictGet, dictInsert, List.find?, hk, hk', h]
        · simpa [dictGet, dictInsert, List.find?, hk, hk', h] using ih

instance {ε α : Type} [DecidableEq ε] [DecidableEq α] : DecidableEq (Except ε α) :=
  fun x y =>
    match x, y with
    | .ok a, .ok b =>
        if h : a = b then isTrue (by rw [h]) else isFalse (by simp [h])
    | .error a, .error b =>
        if h : a = b then isTrue (by rw [h]) else isFalse (by simp [h])
    | .ok _, .error _ => isFalse (by simp)
    | .error _, .ok _ => isFalse (by simp)

/-! ### Checklist state machine — `interview_agent/checklist_state.py` -/

/-- Embeds `ChecklistStatus` enum. -/
inductive ChecklistStatus
  | pending
  | analyzing
  | complete
  deriving DecidableEq, Repr

/-- The `.value` string of a `ChecklistStatus`. -/
def ChecklistStatus.value : ChecklistStatus → String
  | .pending => "pending"
  | .analyzing => "analyzing"
  | .complete => "complete"

/-- Embeds `ChecklistStatus(s)` on a string: exact match against member values. -/
def checklistStatusOfString (s : String) : Option ChecklistStatus :=
  if s = "pending" then some .pending
  else if s = "analyzing" then some .analyzing
  else if s = "complete" then some .complete
  else none

/-- The `status` argument of `update`: `ChecklistStatus | str`. -/
inductive StatusArg
  | enum (s : ChecklistStatus)
  | str (s : String)
  deriving DecidableEq, Repr

/-- Embeds `ChecklistStatus(status)`: identity on enum members, value lookup on
strings; `none` models the `ValueError`. -/
def coerceStatus : StatusArg → Option ChecklistStatus
  | .enum s => some s
  | .str s => checklistStatusOfString s

/-- Embeds `ChecklistDefinition` dataclass. -/
structure ChecklistDefinition where
  id : String
  label : String
  keywords : List String
  deriving DecidableEq, Repr

/-- Embeds `ChecklistItemState` dataclass (all-default construction is
`pending`/`None`/`None`/`None`). -/
structure ChecklistItemState where
  status : ChecklistStatus := .pending
  updated_at : Option String := none
  reason : Option String := none
  source : Option String := none
  deriving DecidableEq, Repr

/-- Embeds `ChecklistStateManager` instance state: the definition tuple plus the
`_state` and `_id_by_label` dicts. -/
structure ChecklistStateManager where
  definitions : List ChecklistDefinition
  state : List (String × ChecklistItemState)
  id_by_label : List (String × String)
  deriving DecidableEq, Repr

/-- The `_state` dict comprehension over the definitions. -/
def initialChecklistState (defs : List ChecklistDefinition) :
    List (String × ChecklistItemState) :=
  defs.foldl (fun d item => dictInsert d item.id {}) []

/-- The `_id_by_label` dict comprehension over the definitions. -/
def initialIdByLabel (defs : List ChecklistDefinition) : List (String × String) :=
  defs.foldl (fun d item => dictInsert d (pyLower (pyStrip item.label)) item.id) []

/-- Embeds `ChecklistStateManager.__init__`; `none` models the `RuntimeError` on an
empty checklist. -/
def mkChecklistStateManager (defs : List ChecklistDefinition) :
    Option ChecklistStateManager :=
  if defs.isEmpty then none
  else some
    { definitions := defs
      state := initialChecklistState defs
      id_by_label := initialIdByLabel defs }

/-- Embeds `ChecklistStateManager.reset`. -/
def ChecklistStateManager.reset (m : ChecklistStateManager) : ChecklistStateManager :=
  { m with state := initialChecklistState m.definitions }

/-- Embeds `ChecklistStateManager._resolve_item_id`. -/
def ChecklistStateManager.resolveItemId (m : ChecklistStateManager) (item : String) :
    Option String :=
  let normalized := pyStrip item
  if normalized.isEmpty then none
  else if (dictGet m.state normalized).isSome then some normalized
  else dictGet m.id_by_label (pyLower normalized)

/-- Embeds `ChecklistStateManager.update`. The wall-clock read `_now_utc()` is the
explicit `now` argument; the `Except` error models the (unreachable for
constructor-built managers) `KeyError` on `self._state[item_id]`. -/
def ChecklistStateManager.update (m : ChecklistStateManager) (item : String)
    (status : StatusArg) (reason source now : String) :
    Except String (Bool × ChecklistStateManager) :=
  match m.resolveItemId item with
  | none => .ok (false, m)
  | some item_id =>
    match coerceStatus status with
    | none => .ok (false, m)
    | some next_status =>
      match dictGet m.state item_id with
      | none => .error "KeyError"
      | some current =>
        if current.status = next_status then .ok (false, m)
        else
          .ok (true,
            { m with
              state := dictInsert m.state item_id
                { status := next_status
                  updated_at := some now
                  reason := some reason
                  source := some source } })

/-- Does `text_lower` contain some keyword of `item` (lower-cased)? -/
def keywordHit (text_lower : String) (item : ChecklistDefinition) : Bool :=
  item.keywords.any (fun keyword => strContains text_lower (pyLower keyword))

/-- Embeds `ChecklistStateManager.apply_talestral_heuristic`. -/
def ChecklistStateManager.applyTalestralHeuristic (m : ChecklistStateManager)
    (text speaker_role now : String) :
    Except String (Bool × ChecklistStateManager) :=
  if text.isEmpty then .ok (false, m)
  else
    let text_lower := pyLower text
    match m.definitions.find? (keywordHit text_lower) with
    | none => .ok (false, m)
    | some item =>
      match dictGet m.state item.id with
      | none => .error "KeyError"
      | some item_state =>
        if item_state.status = .pending then
          m.update item.id (.enum .analyzing)
            "Keyword hit while topic is being discussed" "heuristic" now
        else if item_state.status = .analyzing && speaker_role = "candidate" then
          m.update item.id (.enum .complete)
            "Candidate response completed active topic" "heuristic" now
        else .ok (false, m)

/-- One row of `ChecklistStateManager.snapshot()`. -/
structure SnapshotRow where
  id : String
  label : String
  status : String
  updated_at : Option String
  reason : Option String
  source : Option String
  deriving DecidableEq, Repr

/-- Embeds `ChecklistStateManager.snapshot`; the `Except` error again models the
`KeyError` unreachable for constructor-built managers. -/
def ChecklistStateManager.snapshot (m : ChecklistStateManager) :
    Except String (List SnapshotRow) :=
  m.definitions.mapM (fun item =>
    match dictGet m.state item.id with
    | none => .error "KeyError"
    | some st => .ok
        { id := item.id
          label := item.label
          status := st.status.value
          updated_at := st.updated_at
          reason := st.reason
          source := st.source })

/-! ### Data models — `interview_agent/models.py` -/

/-- Opaque JSON-ish value for `dict`-typed model fields. Every object the
embedded code paths construct has a single entry, so objects are modelled
as single-entry nestings. -/
inductive JsonVal
  | str (s : String)
  | obj (key : String) (val : JsonVal)
  deriving DecidableEq, Repr

/-- Embeds `EventMetadata` model. -/
structure EventMetadata where
  meeting_id : Option String := none
  call_id : Option String := none
  raw_response : Option JsonVal := none
  provider : Option String := none
  deriving DecidableEq, Repr

/-- Embeds `EventError` model. -/
structure EventError where
  code : String
  message : String
  deriving DecidableEq, Repr

/-- Embeds `TranscriptEvent` model (v2, with diarization). Float fields are
embedded as rationals. -/
structure TranscriptEvent where
  event_type : String
  text : Option String := none
  timestamp_utc : String
  speaker_id : Option String := none
  audio_start_ms : Option ℚ := none
  audio_end_ms : Option ℚ := none
  confidence : Option ℚ := none
  metadata : Option EventMetadata := none
  error : Option EventError := none
  deriving DecidableEq, Repr

/-- Embeds `SpeakerMapping` model. -/
structure SpeakerMapping where
  speaker_id : String
  role : String
  name : Option String := none
  deriving DecidableEq, Repr

/-- Embeds `InterviewSession` model. -/
structure InterviewSession where
  session_id : String
  candidate_name : String
  meeting_url : String
  started_at : String
  ended_at : Option String := none
  speaker_mappings : List SpeakerMapping := []
  transcript_events : List TranscriptEvent := []
  deriving DecidableEq, Repr

/-! ### Session manager — `interview_agent/session.py` -/

/-- Embeds `InterviewSessionManager` instance state: `_session` and
`_speaker_roles`. -/
structure InterviewSessionManager where
  session : Option InterviewSession := none
  speaker_roles : List (String × String) := []
  deriving DecidableEq, Repr

/-- Embeds `InterviewSessionManager.is_active`. -/
def InterviewSessionManager.isActive (m : InterviewSessionManager) : Bool :=
  match m.session with
  | some s => s.ended_at.isNone
  | none => false

/-- Embeds `InterviewSessionManager.end_session`. Returns the ended session (or
`none` when no session object exists) together with the new manager state;
the wall-clock read is the explicit `now` argument. -/
def InterviewSessionManager.endSession (m : InterviewSessionManager) (now : String) :
    Option InterviewSession × InterviewSessionManager :=
  match m.session with
  | none => (none, m)
  | some s =>
      let ended := { s with ended_at := some now }
      (some ended, { m with session := some ended })

/-- Embeds `InterviewSessionManager.start_session`. The generated session id and
the wall-clock timestamp are explicit arguments (`uuid`/`datetime.now` in
the source). Note the source implicitly ends any existing session. -/
def InterviewSessionManager.startSession (m : InterviewSessionManager)
    (candidate_name meeting_url new_session_id now : String) :
    InterviewSession × InterviewSessionManager :=
  let m₁ := if m.session.isSome then (m.endSession now).2 else m
  let s : InterviewSession :=
    { session_id := new_session_id
      candidate_name := candidate_name
      meeting_url := meeting_url
      started_at := now }
  (s, { m₁ with session := some s, speaker_roles := [] })

/-- Embeds `InterviewSessionManager.map_speaker`; the `Except` errors model the two
`ValueError`s. -/
def InterviewSessionManager.mapSpeaker (m : InterviewSessionManager)
    (speaker_id role : String) (name : Option String) :
    Except String InterviewSessionManager :=
  match m.session with
  | none => .error "No active session. Call start_session() first."
  | some s =>
      if role ≠ "candidate" && role ≠ "interviewer" then
        .error "Invalid role"
      else
        let display_name : Option String :=
          if truthyStr name then name
          else if role = "candidate" then some s.candidate_name
          else none
        let mappings :=
          (s.speaker_mappings.filter (fun mp => mp.speaker_id ≠ speaker_id)) ++
            [{ speaker_id := speaker_id, role := role, name := display_name }]
        .ok
          { session := some { s with speaker_mappings := mappings }
            speaker_roles := dictInsert m.speaker_roles speaker_id role }

/-- Embeds `InterviewSessionManager.add_transcript`; the `Except` error models the
`ValueError` when no session object exists. -/
def InterviewSessionManager.addTranscript (m : InterviewSessionManager)
    (event : TranscriptEvent) : Except String InterviewSessionManager :=
  match m.session with
  | none => .error "No active session. Call start_session() first."
  | some s =>
      .ok { m with
            session := some
              { s with transcript_events := s.transcript_events ++ [event] } }

/-! ### Analysis models — `interview_agent/models.py` -/

/-- Embeds `AnalysisItem` model (validated form). Scores are rationals in `[0,1]`
at the pydantic boundary. -/
structure AnalysisItem where
  response_id : String
  timestamp_utc : String
  question_text : Option String := none
  response_text : String
  speaker_id : Option String := none
  relevance_score : ℚ
  clarity_score : ℚ
  key_points : List String := []
  follow_up_suggestions : List String := []
  raw_model_output : Option JsonVal := none
  deriving DecidableEq, Repr

/-- Embeds `SessionAnalysis` model (validated form). -/
structure SessionAnalysis where
  session_id : String
  candidate_name : String
  started_at : String
  ended_at : Option String := none
  analysis_items : List AnalysisItem := []
  overall_relevance : Option ℚ := none
  overall_clarity : Option ℚ := none
  total_responses_analyzed : Int := 0
  checklist_state : List SnapshotRow := []
  deriving DecidableEq, Repr

/-- Python `sum(item.relevance_score for item in items)`. -/
def sumRelevance (items : List AnalysisItem) : ℚ :=
  (items.map (·.relevance_score)).sum

/-- Python `sum(item.clarity_score for item in items)`. -/
def sumClarity (items : List AnalysisItem) : ℚ :=
  (items.map (·.clarity_score)).sum

/-- Embeds `SessionAnalysis.compute_overall_scores`. -/
def SessionAnalysis.computeOverallScores (a : SessionAnalysis) : SessionAnalysis :=
  if a.analysis_items.isEmpty then
    { a with
      overall_relevance := none
      overall_clarity := none
      total_responses_analyzed := 0 }
  else
    { a with
      total_responses_analyzed := (a.analysis_items.length : Int)
      overall_relevance :=
        some (sumRelevance a.analysis_items / (a.analysis_items.length : ℚ))
      overall_clarity :=
        some (sumClarity a.analysis_items / (a.analysis_items.length : ℚ)) }

/-! ### Output store — `interview_agent/output.py`

The persisted JSON documents are modelled in "raw" form: every field is
optional (`none` = key absent or `null`), mirroring what `json.load` can
yield before pydantic validation. The filesystem is an association list
from session id to file content. -/

/-- Raw (pre-validation) JSON form of an `AnalysisItem`. -/
structure RawAnalysisItem where
  response_id : Option String := none
  timestamp_utc : Option String := none
  question_text : Option String := none
  response_text : Option String := none
  speaker_id : Option String := none
  relevance_score : Option ℚ := none
  clarity_score : Option ℚ := none
  key_points : Option (List String) := none
  follow_up_suggestions : Option (List String) := none
  raw_model_output : Option JsonVal := none
  deriving DecidableEq, Repr

/-- The non-schema `_meta` block. -/
structure MetaBlock where
  written_at : Option String := none
  created_at : Option String := none
  last_updated_at : Option String := none
  version : Option String := none
  deriving DecidableEq, Repr

/-- Raw (pre-validation) JSON form of a `SessionAnalysis` document,
including the `_meta` block. -/
structure RawSessionAnalysis where
  session_id : Option String := none
  candidate_name : Option String := none
  started_at : Option String := none
  ended_at : Option String := none
  analysis_items : Option (List RawAnalysisItem) := none
  overall_relevance : Option ℚ := none
  overall_clarity : Option ℚ := none
  total_responses_analyzed : Option Int := none
  checklist_state : Option (List SnapshotRow) := none
  meta : Option MetaBlock := none
  deriving DecidableEq, Repr

/-- Embeds `AnalysisItem.model_dump()`. -/
def dumpAnalysisItem (i : AnalysisItem) : RawAnalysisItem :=
  { response_id := some i.response_id
    timestamp_utc := some i.timestamp_utc
    question_text := i.question_text
    response_text := some i.response_text
    speaker_id := i.speaker_id
    relevance_score := some i.relevance_score
    clarity_score := some i.clarity_score
    key_points := some i.key_points
    follow_up_suggestions := some i.follow_up_suggestions
    raw_model_output := i.raw_model_output }

/-- Embeds `SessionAnalysis.model_dump()` plus the injected `_meta` block. -/
def dumpSessionAnalysis (a : SessionAnalysis) (meta : MetaBlock) : RawSessionAnalysis :=
  { session_id := some a.session_id
    candidate_name := some a.candidate_name
    started_at := some a.started_at
    ended_at := a.ended_at
    analysis_items := some (a.analysis_items.map dumpAnalysisItem)
    overall_relevance := a.overall_relevance
    overall_clarity := a.overall_clarity
    total_responses_analyzed := some a.total_responses_analyzed
    checklist_state := some a.checklist_state
    meta := some meta }

/-- pydantic `ge=0.0, le=1.0` constraint. -/
def scoreInRange (q : ℚ) : Bool := decide (0 ≤ q) && decide (q ≤ 1)

/-- Range constraint on an optional score (absent/null is fine). -/
def optScoreOk : Option ℚ → Bool
  | none => true
  | some q => scoreInRange q

/-- Embeds `AnalysisItem.model_validate` on a raw item: required fields must be
present, scores in range, optional fields take their model defaults
(`timestamp_utc`'s default factory reads the clock, passed as `now`). -/
def validateAnalysisItem (r : RawAnalysisItem) (now : String) : Option AnalysisItem :=
  match r.response_id, r.response_text, r.relevance_score, r.clarity_score with
  | some rid, some rtext, some rel, some cla =>
      if scoreInRange rel && scoreInRange cla then
        some
          { response_id := rid
            timestamp_utc := r.timestamp_utc.getD now
            question_text := r.question_text
            response_text := rtext
            speaker_id := r.speaker_id
            relevance_score := rel
            clarity_score := cla
            key_points := r.key_points.getD []
            follow_up_suggestions := r.follow_up_suggestions.getD []
            raw_model_output := r.raw_model_output }
      else none
  | _, _, _, _ => none

/-- Embeds `SessionAnalysis.model_validate` on a raw document (the `_meta` block is
ignored: pydantic's default is to ignore extra keys). -/
def validateSessionAnalysis (r : RawSessionAnalysis) (now : String) :
    Option SessionAnalysis :=
  match r.session_id, r.candidate_name, r.started_at with
  | some sid, some cn, some sa =>
      match optionMapList (fun i => validateAnalysisItem i now) (r.analysis_items.getD []) with
      | none => none
      | some items =>
          if optScoreOk r.overall_relevance && optScoreOk r.overall_clarity then
            some
              { session_id := sid
                candidate_name := cn
                started_at := sa
                ended_at := r.ended_at
                analysis_items := items
                overall_relevance := r.overall_relevance
                overall_clarity := r.overall_clarity
                total_responses_analyzed := r.total_responses_analyzed.getD 0
                checklist_state := r.checklist_state.getD [] }
          else none
  | _, _, _ => none

/-- Content of one `{session_id}_analysis.json` file: either text that is
not valid JSON, or a parsed raw document. -/
inductive FileContent
  | malformed
  | doc (d : RawSessionAnalysis)
  deriving DecidableEq, Repr

/-- The output directory: session id to file content. -/
abbrev OutputStore : Type := List (String × FileContent)

/-- Errors of the output writer: `OutputWriteError`, `OutputReadError`, and
Python `KeyError` on a document missing an expected key. -/
inductive OutputError
  | writeError (msg : String)
  | readError (msg : String)
  | keyError
  deriving DecidableEq, Repr

/-- Embeds `AnalysisOutputWriter.write_analysis`: computes overall scores on the
caller's object, dumps with a fresh `_meta`, and overwrites the file.
Returns the (mutated) analysis and the new store. -/
def writeAnalysis (store : OutputStore) (session_id : String)
    (analysis : SessionAnalysis) (now : String) : SessionAnalysis × OutputStore :=
  let a := analysis.computeOverallScores
  let data := dumpSessionAnalysis a { written_at := some now, version := some "1.0" }
  (a, dictInsert store session_id (.doc data))

/-- The minimal structure `append_item` synthesizes when no file exists. -/
def minimalRawDoc (session_id : String) (checklist_state : Option (List SnapshotRow))
    (now : String) : RawSessionAnalysis :=
  { session_id := some session_id
    candidate_name := some "Unknown"
    started_at := some now
    ended_at := none
    analysis_items := some []
    overall_relevance := none
    overall_clarity := none
    total_responses_analyzed := some 0
    checklist_state := some (checklist_state.getD [])
    meta := some { created_at := some now, version := some "1.0" } }

/-- The body of `append_item` once a document `data` is in hand: append the
dumped item, recompute aggregates, optionally refresh the checklist
snapshot, stamp `_meta`, write back. -/
def appendWithDoc (store : OutputStore) (session_id : String) (item : AnalysisItem)
    (checklist_state : Option (List SnapshotRow)) (now : String)
    (data : RawSessionAnalysis) : Except OutputError OutputStore :=
  match data.analysis_items with
  | none => .error .keyError
  | some items0 =>
    let items := items0 ++ [dumpAnalysisItem item]
    let data1 : RawSessionAnalysis :=
      { data with
        analysis_items := some items
        total_responses_analyzed := some (items.length : Int) }
    let recomputed : Except OutputError RawSessionAnalysis :=
      if items.isEmpty then .ok data1
      else
        match optionMapList (fun r => r.relevance_score) items,
            optionMapList (fun r => r.clarity_score) items with
        | some rels, some clas =>
            .ok { data1 with
                  overall_relevance := some (rels.sum / (items.length : ℚ))
                  overall_clarity := some (clas.sum / (items.length : ℚ)) }
        | _, _ => .error .keyError
    match recomputed with
    | .error e => .error e
    | .ok data2 =>
      let data3 : RawSessionAnalysis :=
        { data2 with
          checklist_state :=
            match checklist_state with
            | some cs => some cs
            | none => data2.checklist_state }
      match data3.meta with
      | none => .error .keyError
      | some mb =>
        let stamped : MetaBlock := { mb with last_updated_at := some now }
        .ok (dictInsert store session_id (.doc ({ data3 with meta := some stamped })))

/-- Embeds `AnalysisOutputWriter.append_item`: load-or-synthesize, append, recompute
aggregates, optionally refresh the checklist snapshot, write back. Python
`KeyError`s on documents missing expected keys are `.error .keyError`. -/
def appendItem (store : OutputStore) (session_id : String) (item : AnalysisItem)
    (checklist_state : Option (List SnapshotRow)) (now : String) :
    Except OutputError OutputStore :=
  match dictGet store session_id with
  | some .malformed => .error (.readError "invalid JSON")
  | some (.doc d) => appendWithDoc store session_id item checklist_state now d
  | none =>
      appendWithDoc store session_id item checklist_state now
        (minimalRawDoc session_id checklist_state now)

/-- Embeds `AnalysisOutputWriter.load_analysis`: `none` if the file is absent,
read-error on invalid JSON or failed validation (after stripping `_meta`). -/
def loadAnalysis (store : OutputStore) (session_id : String) (now : String) :
    Except OutputError (Option SessionAnalysis) :=
  match dictGet store session_id with
  | none => .ok none
  | some .malformed => .error (.readError "invalid JSON")
  | some (.doc d) =>
      match validateSessionAnalysis { d with meta := none } now with
      | some a => .ok (some a)
      | none => .error (.readError "validation failed")

/-! ### Route dispatch — `legionmeet_platform/routes/*.py` -/

/-- Embeds `RouteDispatchResult` dataclass. -/
structure RouteDispatchResult where
  route_id : String
  route_type : String
  ok : Bool
  detail : Option String := none
  deriving DecidableEq, Repr

/-- Outcome of one HTTP POST as seen by `WebhookRoute.dispatch`: either a
response (status code and body text) or a raised exception (network error,
timeout, ...) with its string rendering. -/
inductive HttpOutcome
  | response (status_code : Nat) (text : String)
  | raised (msg : String)
  deriving DecidableEq, Repr

/-- The network environment for one dispatch: what POSTing to a URL does. -/
def Network : Type := String → HttpOutcome

/-- A constructed, enabled route: `UiStreamRoute` or `WebhookRoute`
(unimplemented types fail construction and so never reach dispatch). -/
inductive RouteImpl
  | uiStream (route_id : String)
  | webhook (route_id : String) (url : String)
  deriving DecidableEq, Repr

/-- Embeds `UiStreamRoute.dispatch` / `WebhookRoute.dispatch` for one payload,
given the network environment. -/
def routeDispatch (net : Network) : RouteImpl → RouteDispatchResult
  | .uiStream route_id =>
      { route_id := route_id
        route_type := "ui_stream"
        ok := true
        detail := some "Rendered via sink-owned output artifacts" }
  | .webhook route_id url =>
      match net url with
      | .response status_code text =>
          if status_code ≥ 400 then
            { route_id := route_id
              route_type := "webhook"
              ok := false
              detail := some ("HTTP " ++ toString status_code ++ ": " ++ pyTake text 160) }
          else
            { route_id := route_id
              route_type := "webhook"
              ok := true }
      | .raised msg =>
          { route_id := route_id
            route_type := "webhook"
            ok := false
            detail := some msg }

/-- Embeds `RouteOrchestrator.dispatch_all`: dispatch sequentially to every route,
collecting one result per route in route order. Totality of this function
is the embedding of "never raises". -/
def dispatchAll (net : Network) (routes : List RouteImpl) : List RouteDispatchResult :=
  routes.map (routeDispatch net)

/-! ### Event normalization — `transcript_sink.py` (`normalize_v1_to_v2`) -/

/-- Embeds `AppStats` TypedDict. -/
structure AppStats where
  events_received : Nat := 0
  partial_transcripts : Nat := 0
  final_transcripts : Nat := 0
  errors : Nat := 0
  session_events : Nat := 0
  v1_events : Nat := 0
  v2_events : Nat := 0
  agent_analyses : Nat := 0
  checklist_updates : Nat := 0
  route_dispatch_total : Nat := 0
  route_dispatch_failures : Nat := 0
  started_at : String := ""
  deriving DecidableEq, Repr

/-- Embeds `TranscriptEventRequest` model: v2 canonical fields plus legacy v1
aliases; extra wire fields are ignored by pydantic and hence absent here. -/
structure TranscriptEventRequest where
  event_type : Option String := none
  text : Option String := none
  timestamp_utc : Option String := none
  speaker_id : Option String := none
  audio_start_ms : Option ℚ := none
  audio_end_ms : Option ℚ := none
  confidence : Option ℚ := none
  metadata : Option JsonVal := none
  Kind : Option String := none
  Text : Option String := none
  TsUtc : Option String := none
  Details : Option String := none
  deriving DecidableEq, Repr

/-- The normalized v2 payload dict produced by `normalize_v1_to_v2`
(`none` = key absent or `null`; `event_type` can be `null` when a v2
request omits it). -/
structure NormalizedPayload where
  event_type : Option String
  text : Option String := none
  timestamp_utc : String
  speaker_id : Option String := none
  audio_start_ms : Option ℚ := none
  audio_end_ms : Option ℚ := none
  confidence : Option ℚ := none
  metadata : Option JsonVal := none
  deriving DecidableEq, Repr

/-- The v1 `event_type_map` lookup with default `kind.lower()`. -/
def v1EventTypeMap (k : String) : String :=
  if k = "recognizing" then "partial"
  else if k = "recognized" then "final"
  else if k = "session_started" then "session_started"
  else if k = "session_stopped" then "session_stopped"
  else if k = "canceled" then "error"
  else k

/-- Embeds `normalize_v1_to_v2`. The wall-clock read is the explicit `now`
argument; the updated stats are returned alongside the payload. The
v2 branch's `event_type`/`text` fall back to `none` exactly as the model
defaults do. -/
def normalizeV1ToV2 (request : TranscriptEventRequest) (stats : AppStats)
    (now : String) : NormalizedPayload × AppStats :=
  match request.Kind with
  | some kind =>
      let k := pyLower kind
      let payload : NormalizedPayload :=
        { event_type := some (v1EventTypeMap k)
          text := request.Text
          timestamp_utc := pyOrStr request.TsUtc now
          metadata :=
            if truthyStr request.Details then
              some (.obj "raw_response"
                (.obj "error_details" (.str (request.Details.getD ""))))
            else none }
      (payload, { stats with v1_events := stats.v1_events + 1 })
  | none =>
      let payload : NormalizedPayload :=
        { event_type := request.event_type
          text := request.text
          timestamp_utc := pyOrStr request.timestamp_utc now
          speaker_id := request.speaker_id
          audio_start_ms := request.audio_start_ms
          audio_end_ms := request.audio_end_ms
          confidence := request.confidence
          metadata := request.metadata }
      (payload, { stats with v2_events := stats.v2_events + 1 })

/-! ### Session endpoints — `transcript_sink.py` -/

/-- Service-level errors raised by the HTTP endpoints. -/
inductive ServiceError
  | sessionAlreadyActive
  | sessionNotActive
  | productMismatch
  | other (msg : String)
  deriving DecidableEq, Repr

/-- The slice of `AppState` the `/session/start` endpoint touches. -/
structure SinkState where
  session_manager : InterviewSessionManager
  checklist_manager : ChecklistStateManager
  store : OutputStore

/-- Embeds `SessionStartRequest` model. -/
structure SessionStartRequest where
  candidate_name : String
  meeting_url : String
  product_id : Option String := none
  candidate_speaker_id : Option String := none

/-- The `/session/start` endpoint (`start_session` in `transcript_sink.py`):
reject while a session is active, check the product id, reset the
checklist, start the manager session, optionally map the candidate
speaker, and write the initial analysis file. `active_product_id`, the
generated session id, and the wall clock are explicit arguments. -/
def endpointStartSession (st : SinkState) (request : SessionStartRequest)
    (active_product_id new_session_id now : String) :
    Except ServiceError (InterviewSession × SinkState) :=
  if st.session_manager.isActive then
    .error .sessionAlreadyActive
  else if truthyStr request.product_id && request.product_id ≠ some active_product_id then
    .error .productMismatch
  else
    let cm := st.checklist_manager.reset
    let started :=
      st.session_manager.startSession request.candidate_name request.meeting_url
        new_session_id now
    let session := started.1
    let mapped :=
      match request.candidate_speaker_id with
      | none => Except.ok started.2
      | some sid => started.2.mapSpeaker sid "candidate" (some request.candidate_name)
    match mapped with
    | .error e => .error (.other e)
    | .ok sm =>
        match cm.snapshot with
        | .error e => .error (.other e)
        | .ok snap =>
            let analysis : SessionAnalysis :=
              { session_id := session.session_id
                candidate_name := request.candidate_name
                started_at := session.started_at
                checklist_state := snap }
            let written := writeAnalysis st.store session.session_id analysis now
            .ok (session,
              { session_manager := sm, checklist_manager := cm, store := written.2 })

/-! ## Fixtures

Concrete states reached through the embedded operations, used by the
counterexamples and witnesses below. -/

/-- A manager that has started one session (`start_session` then nothing). -/
def sessionFixture : InterviewSessionManager :=
  (InterviewSessionManager.startSession {} "Jane Doe"
    "https://teams.microsoft.com/j/1" "int_20260131_103000_a1b2c3" "t1").2

/-- The session object `sessionFixture` holds. -/
def sessionFixtureSession : InterviewSession :=
  { session_id := "int_20260131_103000_a1b2c3"
    candidate_name := "Jane Doe"
    meeting_url := "https://teams.microsoft.com/j/1"
    started_at := "t1" }

/-- The same manager after `end_session` at time `t2`. -/
def sessionEndedFixture : InterviewSessionManager :=
  (sessionFixture.endSession "t2").2

/-- The (ended) session object `sessionEndedFixture` holds. -/
def sessionEndedFixtureSession : InterviewSession :=
  { sessionFixtureSession with ended_at := some "t2" }

/-- A concrete transcript event. -/
def eventFixture : TranscriptEvent :=
  { event_type := "final"
    text := some "I have 5 years of Python experience."
    timestamp_utc := "t3"
    speaker_id := some "speaker_1" }

/-! ## C1 — start_session while Active -/

/-- C1 (counterexample): with an Active session, the session manager's own
`start_session` does not fail: it implicitly ends the existing session and
installs a fresh one (the stored session id changes from the fixture's to
the new one), contradicting "fails as a hard error (no implicit rollover)
and leaves the existing Active session unmutated". -/
theorem claim_C1_counterexample :
    sessionFixture.isActive = true ∧
    sessionFixture.session.map (·.session_id) = some "int_20260131_103000_a1b2c3" ∧
    ((sessionFixture.startSession "Bob Jones" "https://teams.microsoft.com/j/2"
        "int_20260201_090000_d4e5f6" "t9").2.session.map (·.session_id)) =
      some "int_20260201_090000_d4e5f6" := by
  decide

/-- C1 (amended): the hard error lives one layer up: whenever the session
manager is Active, the `/session/start` endpoint raises
`SessionAlreadyActiveError` before touching any state, so the Active
session is left unmutated; and after any `start_session` the manager holds
exactly the returned session, so at most one non-ended session ever exists.
The manager's own `start_session` implicitly ends a previous session
rather than failing. -/
theorem claim_C1 (st : SinkState) (request : SessionStartRequest)
    (active_product_id new_session_id now : String)
    (h : st.session_manager.isActive = true) :
    endpointStartSession st request active_product_id new_session_id now =
      .error .sessionAlreadyActive ∧
    ∀ (m : InterviewSessionManager) (c u i t : String),
      ((m.startSession c u i t).2).session = some (m.startSession c u i t).1 := by
  constructor
  · simp [endpointStartSession, h]
  · intro m c u i t
    simp [InterviewSessionManager.startSession]

/-- C1 witness: the amended theorem applied at the Active fixture. -/
theorem claim_C1_witness :
    endpointStartSession
      { session_manager := sessionFixture
        checklist_manager :=
          { definitions := [{ id := "tech_skills", label := "Technical Skills",
                              keywords := ["python"] }]
            state := [("tech_skills", {})]
            id_by_label := [("technical skills", "tech_skills")] }
        store := [] }
      { candidate_name := "Bob Jones", meeting_url := "https://example.com/m" }
      "interview_analysis" "int_2" "t9" = .error .sessionAlreadyActive :=
  (claim_C1 _ _ _ _ _ (by decide)).1

/-! ## C2 — end_session semantics -/

/-- C2 (counterexample): with a session that is already Ended (`ended_at`
stamped `"t2"`), `end_session` is not a no-op returning null: it returns
the session again and re-stamps `ended_at` with the new clock reading. -/
theorem claim_C2_counterexample :
    sessionEndedFixture.session.map (·.ended_at) = some (some "t2") ∧
    ((sessionEndedFixture.endSession "t5").1.map (·.ended_at)) = some (some "t5") := by
  decide

/-- C2 (amended): `end_session` is a no-op returning null only when no
session object exists. When a session exists — Active or already Ended —
it stamps (or re-stamps) `ended_at` with the current time, transitions the
session to Ended, and keeps the session object retrievable in the manager
state (it is not discarded). -/
theorem claim_C2 (m : InterviewSessionManager) (now : String) :
    (m.session = none → m.endSession now = (none, m)) ∧
    (∀ s, m.session = some s →
      m.endSession now =
        (some { s with ended_at := some now },
         { m with session := some { s with ended_at := some now } })) := by
  constructor
  · intro h
    simp [InterviewSessionManager.endSession, h]
  · intro s h
    simp [InterviewSessionManager.endSession, h]

/-- C2 witness: at the started fixture, ending stamps `ended_at` and keeps
the session retrievable. -/
theorem claim_C2_witness :
    sessionFixture.endSession "t2" =
      (some { sessionFixtureSession with ended_at := some "t2" },
       { sessionFixture with
         session := some { sessionFixtureSession with ended_at := some "t2" } }) :=
  (claim_C2 sessionFixture "t2").2 sessionFixtureSession (by decide)

/-! ## C10 — map_speaker / add_transcript vs session existence -/

/-- C10 (counterexample): `map_speaker` raises even though a session object
exists, when the role is outside the closed set — so "raises if and only
if no session object exists" fails in the only-if direction. -/
theorem claim_C10_counterexample :
    sessionFixture.session.isSome = true ∧
    sessionFixture.mapSpeaker "speaker_0" "moderator" none = .error "Invalid role" := by
  decide

/-- C10 (amended): `add_transcript` raises exactly when no session object
exists; `map_speaker` raises exactly when no session object exists or the
role is not in the closed set, and otherwise replaces any prior mapping
for the speaker id; ending a session keeps the session object, so both
operations still succeed on the Ended session and mutate it (the Ended
state is not treated as NoSession). -/
theorem claim_C10 (m : InterviewSessionManager) (e : TranscriptEvent)
    (speaker_id role : String) (name : Option String) (now : String) :
    (m.session = none →
        m.addTranscript e = .error "No active session. Call start_session() first." ∧
        m.mapSpeaker speaker_id role name =
          .error "No active session. Call start_session() first.") ∧
    (∀ s, m.session = some s →
        m.addTranscript e =
          .ok ({ m with
                 session := some ({ s with transcript_events := s.transcript_events ++ [e] }) })) ∧
    (∀ s, m.session = some s → role ≠ "candidate" → role ≠ "interviewer" →
        m.mapSpeaker speaker_id role name = .error "Invalid role") ∧
    (∀ s, m.session = some s → (role = "candidate" ∨ role = "interviewer") →
        m.mapSpeaker speaker_id role name =
          .ok ({ session :=
                   some ({ s with
                           speaker_mappings :=
                             (s.speaker_mappings.filter (fun mp => mp.speaker_id ≠ speaker_id)) ++
                               [{ speaker_id := speaker_id, role := role,
                                  name := if truthyStr name then name
                                          else if role = "candidate" then some s.candidate_name
                                          else none }] })
                 speaker_roles := dictInsert m.speaker_roles speaker_id role })) ∧
    ((m.endSession now).2.session.isSome = m.session.isSome) := by
  refine ⟨?_, ?_, ?_, ?_, ?_⟩
  · intro h
    constructor
    · simp [InterviewSessionManager.addTranscript, h]
    · simp [InterviewSessionManager.mapSpeaker, h]
  · intro s h
    simp [InterviewSessionManager.addTranscript, h]
  · intro s h h1 h2
    simp [InterviewSessionManager.mapSpeaker, h, h1, h2]
  · intro s h hrole
    rcases hrole with h' | h' <;> subst h' <;>
      simp [InterviewSessionManager.mapSpeaker, h]
  · cases h : m.session with
    | none => simp [InterviewSessionManager.endSession, h]
    | some s => simp [InterviewSessionManager.endSession, h]

/-- C10 witness: on the Ended fixture, `add_transcript` still succeeds and
appends, and `map_speaker` with a valid role still succeeds. -/
theorem claim_C10_witness :
    sessionEndedFixture.addTranscript eventFixture =
      .ok ({ sessionEndedFixture with
             session := some
               ({ sessionEndedFixtureSession with
                  transcript_events :=
                    sessionEndedFixtureSession.transcript_events ++
                      [eventFixture] }) }) ∧
    sessionEndedFixture.mapSpeaker "speaker_1" "candidate" none ≠
      .error "No active session. Call start_session() first." := by
  constructor
  · exact (claim_C10 sessionEndedFixture eventFixture "speaker_1" "candidate" none
      "t9").2.1 sessionEndedFixtureSession (by decide)
  · have hm' :=
      (claim_C10 sessionEndedFixture eventFixture "speaker_1" "candidate" none
        "t9").2.2.2.1 sessionEndedFixtureSession (by decide) (Or.inl rfl)
    simp [hm']

/-! ## Checklist fixtures and helper lemmas -/

/-- A concrete two-item checklist (declaration order matters for the
first-match rule). -/
def checklistDefsFixture : List ChecklistDefinition :=
  [{ id := "tech_skills", label := "Technical Skills", keywords := ["python", "coding"] },
   { id := "experience", label := "Experience", keywords := ["experience", "worked"] }]

/-- The manager the constructor builds from `checklistDefsFixture`. -/
def checklistFixture : ChecklistStateManager :=
  (mkChecklistStateManager checklistDefsFixture).getD
    { definitions := [], state := [], id_by_label := [] }

/-- The manager `checklistFixture` after the tool writer drove `tech_skills` to
`complete` through two `update` calls. -/
def checklistCompleteFixture : ChecklistStateManager :=
  match checklistFixture.update "tech_skills" (.str "analyzing") "topic opened" "tool" "t1" with
  | .ok (_, m1) =>
      match m1.update "tech_skills" (.str "complete") "topic closed" "tool" "t2" with
      | .ok (_, m2) => m2
      | .error _ => m1
  | .error _ => checklistFixture

/-- Well-formedness used by the heuristic theorems: every configured item
id is its own `strip`, is non-empty, and has a `_state` entry. Managers
built by the constructor from such definitions satisfy this. -/
def ChecklistStateManager.Tidy (m : ChecklistStateManager) : Prop :=
  ∀ d ∈ m.definitions,
    pyStrip d.id = d.id ∧ d.id.isEmpty = false ∧ (dictGet m.state d.id).isSome = true

instance (m : ChecklistStateManager) : Decidable m.Tidy := by
  unfold ChecklistStateManager.Tidy
  infer_instance

theorem resolveItemId_self (m : ChecklistStateManager) (item_id : String)
    (hstrip : pyStrip item_id = item_id) (hne : item_id.isEmpty = false)
    (hget : (dictGet m.state item_id).isSome = true) :
    m.resolveItemId item_id = some item_id := by
  simp [ChecklistStateManager.resolveItemId, hstrip, hne, hget]

/-- The manager after one in-place status write to `item_id`. -/
def writtenState (m : ChecklistStateManager) (item_id : String) (s : ChecklistStatus)
    (reason source now : String) : ChecklistStateManager :=
  let written : ChecklistItemState :=
    { status := s, updated_at := some now, reason := some reason, source := some source }
  { m with state := dictInsert m.state item_id written }

/-- An `update` by exact id with an enum status different from the current
one performs exactly one `dictInsert`. -/
theorem update_enum_changes (m : ChecklistStateManager) (item_id : String)
    (s : ChecklistStatus) (reason source now : String) (cur : ChecklistItemState)
    (hstrip : pyStrip item_id = item_id) (hne : item_id.isEmpty = false)
    (hget : dictGet m.state item_id = some cur) (hs : cur.status ≠ s) :
    m.update item_id (.enum s) reason source now =
      .ok (true, writtenState m item_id s reason source now) := by
  have hres := resolveItemId_self m item_id hstrip hne (by simp [hget])
  simp [ChecklistStateManager.update, hres, coerceStatus, hget, hs, writtenState]

/-! Characterization of `apply_talestral_heuristic`, branch by branch. -/

theorem applyH_empty (m : ChecklistStateManager) (text role now : String)
    (h : text.isEmpty = true) :
    m.applyTalestralHeuristic text role now = .ok (false, m) := by
  simp [ChecklistStateManager.applyTalestralHeuristic, h]

theorem applyH_nomatch (m : ChecklistStateManager) (text role now : String)
    (h : text.isEmpty = false)
    (hfind : m.definitions.find? (keywordHit (pyLower text)) = none) :
    m.applyTalestralHeuristic text role now = .ok (false, m) := by
  simp [ChecklistStateManager.applyTalestralHeuristic, h, hfind]

theorem applyH_pending (m : ChecklistStateManager) (text role now : String)
    (item : ChecklistDefinition) (st : ChecklistItemState)
    (h : text.isEmpty = false)
    (hfind : m.definitions.find? (keywordHit (pyLower text)) = some item)
    (hstrip : pyStrip item.id = item.id) (hne : item.id.isEmpty = false)
    (hget : dictGet m.state item.id = some st) (hp : st.status = .pending) :
    m.applyTalestralHeuristic text role now =
      .ok (true, writtenState m item.id .analyzing
        "Keyword hit while topic is being discussed" "heuristic" now) := by
  have hu := update_enum_changes m item.id .analyzing
    "Keyword hit while topic is being discussed" "heuristic" now st hstrip hne hget
    (by rw [hp]; decide)
  simp [ChecklistStateManager.applyTalestralHeuristic, h, hfind, hget, hp, hu]

theorem applyH_analyzing_candidate (m : ChecklistStateManager) (text now : String)
    (item : ChecklistDefinition) (st : ChecklistItemState)
    (h : text.isEmpty = false)
    (hfind : m.definitions.find? (keywordHit (pyLower text)) = some item)
    (hstrip : pyStrip item.id = item.id) (hne : item.id.isEmpty = false)
    (hget : dictGet m.state item.id = some st) (ha : st.status = .analyzing) :
    m.applyTalestralHeuristic text "candidate" now =
      .ok (true, writtenState m item.id .complete
        "Candidate response completed active topic" "heuristic" now) := by
  have hu := update_enum_changes m item.id .complete
    "Candidate response completed active topic" "heuristic" now st hstrip hne hget
    (by rw [ha]; decide)
  simp [ChecklistStateManager.applyTalestralHeuristic, h, hfind, hget, ha, hu]

theorem applyH_nochange (m : ChecklistStateManager) (text role now : String)
    (item : ChecklistDefinition) (st : ChecklistItemState)
    (h : text.isEmpty = false)
    (hfind : m.definitions.find? (keywordHit (pyLower text)) = some item)
    (hget : dictGet m.state item.id = some st) (hp : st.status ≠ .pending)
    (hac : st.status ≠ .analyzing ∨ role ≠ "candidate") :
    m.applyTalestralHeuristic text role now = .ok (false, m) := by
  have hcond : (decide (st.status = ChecklistStatus.analyzing) &&
      decide (role = "candidate")) = false := by
    rcases hac with h' | h' <;> simp [h']
  simp [ChecklistStateManager.applyTalestralHeuristic, h, hfind, hget, hp, hcond]

/-! ## C3 — monotonicity of checklist status -/

/-- C3 (counterexample): `update` does not enforce the monotonic state
machine. With `tech_skills` at `complete` (reached through the tool
writer), a further tool `update` back to `"analyzing"` returns `true` and
regresses the item. -/
theorem claim_C3_counterexample :
    (dictGet checklistCompleteFixture.state "tech_skills").map (·.status) =
      some .complete ∧
    (checklistCompleteFixture.update "tech_skills" (.str "analyzing")
        "revisit" "tool" "t3").map
      (fun r => (r.1, (dictGet r.2.state "tech_skills").map (·.status))) =
      .ok (true, some .analyzing) := by
  decide

/-- C3 (amended): the heuristic writer is monotone — for a tidy manager,
`apply_talestral_heuristic` changes each item's state either not at all,
or from pending to analyzing, or from analyzing to complete. The `update`
entry point itself does not enforce this: it applies any requested valid
status change, including regressions from complete, regardless of the
`source` argument. -/
theorem claim_C3 (m : ChecklistStateManager) (text role now : String) (b : Bool)
    (m' : ChecklistStateManager) (hT : m.Tidy)
    (hres : m.applyTalestralHeuristic text role now = .ok (b, m')) :
    ∀ id st st', dictGet m.state id = some st → dictGet m'.state id = some st' →
      st' = st ∨
      (st.status = .pending ∧ st'.status = .analyzing) ∨
      (st.status = .analyzing ∧ st'.status = .complete) := by
  intro id st st' hst hst'
  have same_case : m' = m →
      (st' = st ∨
        (st.status = .pending ∧ st'.status = .analyzing) ∨
        (st.status = .analyzing ∧ st'.status = .complete)) := by
    intro hm
    subst hm
    rw [hst] at hst'
    exact Or.inl (Option.some.inj hst').symm
  by_cases htext : text.isEmpty = true
  · rw [applyH_empty m text role now htext] at hres
    exact same_case (congrArg Prod.snd (Except.ok.inj hres)).symm
  · have htext' : text.isEmpty = false := by simpa using htext
    cases hfind : m.definitions.find? (keywordHit (pyLower text)) with
    | none =>
        rw [applyH_nomatch m text role now htext' hfind] at hres
        exact same_case (congrArg Prod.snd (Except.ok.inj hres)).symm
    | some item =>
        have hmem : item ∈ m.definitions := List.mem_of_find?_eq_some hfind
        obtain ⟨hstrip, hne, hsome⟩ := hT item hmem
        cases hget : dictGet m.state item.id with
        | none => rw [hget] at hsome; simp at hsome
        | some item_state =>
            have step : ∀ (s : ChecklistStatus) (reason : String),
                m' = writtenState m item.id s reason "heuristic" now →
                (id = item.id → st = item_state ∧ st'.status = s) ∧
                (id ≠ item.id → st' = st) := by
              intro s reason hm
              constructor
              · intro hid
                subst hid
                rw [hget] at hst
                refine ⟨(Option.some.inj hst).symm, ?_⟩
                rw [hm] at hst'
                simp only [writtenState] at hst'
                rw [dictGet_dictInsert_self] at hst'
                rw [← Option.some.inj hst']
              · intro hid
                rw [hm] at hst'
                simp only [writtenState] at hst'
                rw [dictGet_dictInsert_ne _ _ _ _ hid] at hst'
                rw [hst] at hst'
                exact (Option.some.inj hst').symm
            cases hstatus : item_state.status with
            | pending =>
                rw [applyH_pending m text role now item item_state htext' hfind hstrip hne
                  hget hstatus] at hres
                have hm := (congrArg Prod.snd (Except.ok.inj hres)).symm
                by_cases hid : id = item.id
                · obtain ⟨hstq, hst'q⟩ := (step _ _ hm).1 hid
                  exact Or.inr (Or.inl ⟨by rw [hstq, hstatus], hst'q⟩)
                · exact Or.inl ((step _ _ hm).2 hid)
            | analyzing =>
                by_cases hrole : role = "candidate"
                · subst hrole
                  rw [applyH_analyzing_candidate m text now item item_state htext' hfind
                    hstrip hne hget hstatus] at hres
                  have hm := (congrArg Prod.snd (Except.ok.inj hres)).symm
                  by_cases hid : id = item.id
                  · obtain ⟨hstq, hst'q⟩ := (step _ _ hm).1 hid
                    exact Or.inr (Or.inr ⟨by rw [hstq, hstatus], hst'q⟩)
                  · exact Or.inl ((step _ _ hm).2 hid)
                · rw [applyH_nochange m text role now item item_state htext' hfind hget
                    (by rw [hstatus]; decide) (Or.inr hrole)] at hres
                  exact same_case (congrArg Prod.snd (Except.ok.inj hres)).symm
            | complete =>
                rw [applyH_nochange m text role now item item_state htext' hfind hget
                  (by rw [hstatus]; decide) (Or.inl (by rw [hstatus]; decide))] at hres
                exact same_case (congrArg Prod.snd (Except.ok.inj hres)).symm

/-- The manager a concrete heuristic call on the fixture produces. -/
def heuristicStepFixture : ChecklistStateManager :=
  match checklistFixture.applyTalestralHeuristic
      "Tell me about your Python coding" "interviewer" "t1" with
  | .ok (_, m') => m'
  | .error _ => checklistFixture

/-- C3 witness: the monotonicity theorem applied to a concrete heuristic
call on the fixture (keyword hit on a pending item). -/
theorem claim_C3_witness :
    ({ status := .analyzing, updated_at := some "t1",
       reason := some "Keyword hit while topic is being discussed",
       source := some "heuristic" } : ChecklistItemState) =
        ({} : ChecklistItemState) ∨
    (({} : ChecklistItemState).status = .pending ∧
      ({ status := .analyzing, updated_at := some "t1",
         reason := some "Keyword hit while topic is being discussed",
         source := some "heuristic" } : ChecklistItemState).status = .analyzing) ∨
    (({} : ChecklistItemState).status = .analyzing ∧
      ({ status := .analyzing, updated_at := some "t1",
         reason := some "Keyword hit while topic is being discussed",
         source := some "heuristic" } : ChecklistItemState).status = .complete) :=
  claim_C3 checklistFixture "Tell me about your Python coding" "interviewer" "t1"
    true heuristicStepFixture (by decide) (by decide) "tech_skills" {}
    { status := .analyzing, updated_at := some "t1",
      reason := some "Keyword hit while topic is being discussed",
      source := some "heuristic" } (by decide) (by decide)

/-! ## C4 — the two-step heuristic rule -/

/-- C4: `apply_heuristic` acts only on the first declared item whose
keywords occur in the lowercased text: a pending item transitions to
analyzing regardless of speaker role; an analyzing item transitions to
complete exactly when the speaker role is "candidate"; every other
combination (analyzing with a non-candidate speaker, complete, no match,
empty text) yields no change; and the single write touches only the
matched item's id, so later matching items are never updated in the same
call. -/
theorem claim_C4 (m : ChecklistStateManager) (text speaker_role now : String)
    (hT : m.Tidy) :
    (text.isEmpty = true →
      m.applyTalestralHeuristic text speaker_role now = .ok (false, m)) ∧
    (text.isEmpty = false →
      m.definitions.find? (keywordHit (pyLower text)) = none →
      m.applyTalestralHeuristic text speaker_role now = .ok (false, m)) ∧
    (∀ item st, text.isEmpty = false →
      m.definitions.find? (keywordHit (pyLower text)) = some item →
      dictGet m.state item.id = some st →
      (st.status = .pending →
        m.applyTalestralHeuristic text speaker_role now =
          .ok (true, writtenState m item.id .analyzing
            "Keyword hit while topic is being discussed" "heuristic" now)) ∧
      (st.status = .analyzing → speaker_role = "candidate" →
        m.applyTalestralHeuristic text speaker_role now =
          .ok (true, writtenState m item.id .complete
            "Candidate response completed active topic" "heuristic" now)) ∧
      (st.status = .analyzing → speaker_role ≠ "candidate" →
        m.applyTalestralHeuristic text speaker_role now = .ok (false, m)) ∧
      (st.status = .complete →
        m.applyTalestralHeuristic text speaker_role now = .ok (false, m))) ∧
    (∀ item_id s r src n id, id ≠ item_id →
      dictGet (writtenState m item_id s r src n).state id = dictGet m.state id) := by
  refine ⟨?_, ?_, ?_, ?_⟩
  · intro h
    exact applyH_empty m text speaker_role now h
  · intro h hfind
    exact applyH_nomatch m text speaker_role now h hfind
  · intro item st h hfind hget
    have hmem : item ∈ m.definitions := List.mem_of_find?_eq_some hfind
    obtain ⟨hstrip, hne, -⟩ := hT item hmem
    refine ⟨?_, ?_, ?_, ?_⟩
    · intro hp
      exact applyH_pending m text speaker_role now item st h hfind hstrip hne hget hp
    · intro ha hrole
      subst hrole
      exact applyH_analyzing_candidate m text now item st h hfind hstrip hne hget ha
    · intro ha hrole
      exact applyH_nochange m text speaker_role now item st h hfind hget
        (by rw [ha]; decide) (Or.inr hrole)
    · intro hc
      exact applyH_nochange m text speaker_role now item st h hfind hget
        (by rw [hc]; decide) (Or.inl (by rw [hc]; decide))
  · intro item_id s r src n id hid
    simp only [writtenState]
    exact dictGet_dictInsert_ne _ _ _ _ hid

/-- C4 witness: on the fixture, "python" spoken by the interviewer opens
`tech_skills` (pending → analyzing), and a later keyword for `experience`
in the same text is not acted on. -/
theorem claim_C4_witness :
    checklistFixture.applyTalestralHeuristic
        "I have python experience" "interviewer" "t1" =
      .ok (true, writtenState checklistFixture "tech_skills" .analyzing
        "Keyword hit while topic is being discussed" "heuristic" "t1") ∧
    dictGet (writtenState checklistFixture "tech_skills" .analyzing
        "Keyword hit while topic is being discussed" "heuristic" "t1").state
      "experience" = dictGet checklistFixture.state "experience" := by
  constructor
  · exact ((claim_C4 checklistFixture "I have python experience" "interviewer" "t1"
      (by decide)).2.2.1
      { id := "tech_skills", label := "Technical Skills", keywords := ["python", "coding"] }
      {} (by decide) (by decide) (by decide)).1 (by decide)
  · exact (claim_C4 checklistFixture "I have python experience" "interviewer" "t1"
      (by decide)).2.2.2 "tech_skills" .analyzing
      "Keyword hit while topic is being discussed" "heuristic" "t1" "experience"
      (by decide)

/-! ## C5 — update no-op cases -/

/-- C5: `update` returns `false` and leaves the manager (hence every item's
status, `updated_at`, `reason`, and `source`) unchanged when the item
resolves by neither id nor case-insensitive label, when the status string
is invalid, or when the requested status equals the item's current status
— and it never raises in these cases. -/
theorem claim_C5 (m : ChecklistStateManager) (item : String) (status : StatusArg)
    (reason source now : String) :
    (m.resolveItemId item = none →
      m.update item status reason source now = .ok (false, m)) ∧
    (coerceStatus status = none →
      m.update item status reason source now = .ok (false, m)) ∧
    (∀ item_id cur, m.resolveItemId item = some item_id →
      dictGet m.state item_id = some cur → coerceStatus status = some cur.status →
      m.update item status reason source now = .ok (false, m)) := by
  refine ⟨?_, ?_, ?_⟩
  · intro hr
    simp [ChecklistStateManager.update, hr]
  · intro hc
    cases hr : m.resolveItemId item <;>
      simp [ChecklistStateManager.update, hr, hc]
  · intro item_id cur hr hget hc
    simp [ChecklistStateManager.update, hr, hc, hget]

/-- C5 witness: on the fixture — unknown item, invalid status string, and a
same-status request (resolved through the case-insensitive label) all
return `false` without change. -/
theorem claim_C5_witness :
    (checklistFixture.update "unknown_topic" (.str "pending") "r" "tool" "t1" =
      .ok (false, checklistFixture)) ∧
    (checklistFixture.update "tech_skills" (.str "done") "r" "tool" "t1" =
      .ok (false, checklistFixture)) ∧
    (checklistFixture.update "Technical Skills" (.str "pending") "r" "tool" "t1" =
      .ok (false, checklistFixture)) :=
  ⟨(claim_C5 checklistFixture "unknown_topic" (.str "pending") "r" "tool" "t1").1
      (by decide),
   (claim_C5 checklistFixture "tech_skills" (.str "done") "r" "tool" "t1").2.1
      (by decide),
   (claim_C5 checklistFixture "Technical Skills" (.str "pending") "r" "tool" "t1").2.2
      "tech_skills" {} (by decide) (by decide) (by decide)⟩

/-! ## C8 — route dispatch and failure isolation -/

/-- C8 (counterexample): the webhook route treats only HTTP status ≥ 400 as
failure, so a non-2xx redirect status (302) is reported `ok = true`,
contradicting "a webhook failure (non-2xx status, …) is captured as
ok=false". -/
theorem claim_C8_counterexample :
    (routeDispatch (fun _ => .response 302 "Found")
        (.webhook "wh_1" "https://example.com/hook")).ok = true ∧
    ¬(200 ≤ 302 ∧ 302 < 300) := by
  constructor
  · rfl
  · decide

/-- C8 (amended): `dispatch_all` returns exactly one `RouteDispatchResult`
per enabled route, in route order, and never raises (it is a total
function); a webhook failure — HTTP status ≥ 400 (not any non-2xx), a
raised network error or timeout — is captured as `ok=false` with a
human-readable detail and does not prevent dispatch to any later route:
with one always-failing webhook and one always-succeeding UI route,
`dispatch_all` returns two results with exactly one `ok=false`. -/
theorem claim_C8 (net : Network) (routes : List RouteImpl) :
    (dispatchAll net routes).length = routes.length ∧
    (∀ i (h : i < routes.length),
      (dispatchAll net routes).get ⟨i, by simpa [dispatchAll] using h⟩ =
        routeDispatch net (routes.get ⟨i, h⟩)) ∧
    (∀ route_id url msg, net url = .raised msg →
      routeDispatch net (.webhook route_id url) =
        { route_id := route_id, route_type := "webhook", ok := false,
          detail := some msg }) ∧
    (∀ route_id url code text, net url = .response code text → 400 ≤ code →
      routeDispatch net (.webhook route_id url) =
        { route_id := route_id, route_type := "webhook", ok := false,
          detail := some ("HTTP " ++ toString code ++ ": " ++ pyTake text 160) }) ∧
    (∀ route_id url code text, net url = .response code text → code < 400 →
      routeDispatch net (.webhook route_id url) =
        { route_id := route_id, route_type := "webhook", ok := true,
          detail := none }) ∧
    (∀ wid wurl uid msg, net wurl = .raised msg →
      dispatchAll net [.webhook wid wurl, .uiStream uid] =
        [{ route_id := wid, route_type := "webhook", ok := false, detail := some msg },
         { route_id := uid, route_type := "ui_stream", ok := true,
           detail := some "Rendered via sink-owned output artifacts" }]) := by
  refine ⟨?_, ?_, ?_, ?_, ?_, ?_⟩
  · simp [dispatchAll]
  · intro i h
    simp [dispatchAll]
  · intro route_id url msg h
    simp [routeDispatch, h]
  · intro route_id url code text h hc
    simp [routeDispatch, h, hc]
  · intro route_id url code text h hc
    simp [routeDispatch, h, Nat.not_le.mpr hc]
  · intro wid wurl uid msg h
    simp [dispatchAll, routeDispatch, h]

/-- C8 witness: one failing webhook plus one UI route, concretely. -/
theorem claim_C8_witness :
    dispatchAll (fun _ => .raised "Connection refused")
        [.webhook "wh_1" "https://example.com/hook", .uiStream "ui_1"] =
      [{ route_id := "wh_1", route_type := "webhook", ok := false,
         detail := some "Connection refused" },
       { route_id := "ui_1", route_type := "ui_stream", ok := true,
         detail := some "Rendered via sink-owned output artifacts" }] :=
  (claim_C8 (fun _ => .raised "Connection refused")
      [.webhook "wh_1" "https://example.com/hook", .uiStream "ui_1"]).2.2.2.2.2
    "wh_1" "https://example.com/hook" "ui_1" "Connection refused" rfl

/-! ## C9 — v1 → v2 event normalization -/

/-- A concrete legacy cancel event. -/
def v1CancelRequest : TranscriptEventRequest :=
  { Kind := some "canceled", TsUtc := some "t0",
    Details := some "CancellationReason.Error" }

/-- C9 (counterexample): the legacy `canceled` kind is not passed through —
the normalizer maps it to `error`. -/
theorem claim_C9_counterexample :
    (normalizeV1ToV2 v1CancelRequest {} "now0").1.event_type = some "error" ∧
    "error" ≠ "canceled" := by
  constructor
  · rfl
  · decide

/-- C9 (amended): for every legacy (v1) wire event the normalizer produces
exactly one canonical event; the lower-cased kind is mapped
recognizing→partial, recognized→final, session_started/session_stopped
pass through, canceled→error, and any unknown kind passes through
unchanged (lower-cased); the legacy `Text`/`TsUtc` fields carry over, and
a non-empty `Details` field is folded verbatim into
`metadata.raw_response.error_details` (no information loss), while an
empty/absent `Details` yields no metadata; the v1 counter increments. -/
theorem claim_C9 (request : TranscriptEventRequest) (stats : AppStats)
    (now kind : String) (h : request.Kind = some kind) :
    ((normalizeV1ToV2 request stats now).1.event_type = some (v1EventTypeMap (pyLower kind))) ∧
    (pyLower kind = "recognizing" →
      (normalizeV1ToV2 request stats now).1.event_type = some "partial") ∧
    (pyLower kind = "recognized" →
      (normalizeV1ToV2 request stats now).1.event_type = some "final") ∧
    (pyLower kind = "session_started" →
      (normalizeV1ToV2 request stats now).1.event_type = some "session_started") ∧
    (pyLower kind = "session_stopped" →
      (normalizeV1ToV2 request stats now).1.event_type = some "session_stopped") ∧
    (pyLower kind = "canceled" →
      (normalizeV1ToV2 request stats now).1.event_type = some "error") ∧
    (pyLower kind ≠ "recognizing" → pyLower kind ≠ "recognized" →
      pyLower kind ≠ "session_started" → pyLower kind ≠ "session_stopped" →
      pyLower kind ≠ "canceled" →
      (normalizeV1ToV2 request stats now).1.event_type = some (pyLower kind)) ∧
    ((normalizeV1ToV2 request stats now).1.text = request.Text) ∧
    ((normalizeV1ToV2 request stats now).1.timestamp_utc = pyOrStr request.TsUtc now) ∧
    (∀ d, request.Details = some d → d.isEmpty = false →
      (normalizeV1ToV2 request stats now).1.metadata =
        some (.obj "raw_response" (.obj "error_details" (.str d)))) ∧
    (truthyStr request.Details = false →
      (normalizeV1ToV2 request stats now).1.metadata = none) ∧
    ((normalizeV1ToV2 request stats now).2 =
      { stats with v1_events := stats.v1_events + 1 }) := by
  refine ⟨?_, ?_, ?_, ?_, ?_, ?_, ?_, ?_, ?_, ?_, ?_, ?_⟩
  · simp [normalizeV1ToV2, h]
  · intro hk
    simp [normalizeV1ToV2, h, hk, v1EventTypeMap]
  · intro hk
    simp [normalizeV1ToV2, h, hk, v1EventTypeMap]
  · intro hk
    simp [normalizeV1ToV2, h, hk, v1EventTypeMap]
  · intro hk
    simp [normalizeV1ToV2, h, hk, v1EventTypeMap]
  · intro hk
    simp [normalizeV1ToV2, h, hk, v1EventTypeMap]
  · intro h1 h2 h3 h4 h5
    simp [normalizeV1ToV2, h, v1EventTypeMap, h1, h2, h3, h4, h5]
  · simp [normalizeV1ToV2, h]
  · simp [normalizeV1ToV2, h]
  · intro d hd hde
    simp [normalizeV1ToV2, h, hd, truthyStr, hde]
  · intro hd
    simp [normalizeV1ToV2, h, hd]
  · simp [normalizeV1ToV2, h]

/-- A concrete legacy recognizing event with error details. -/
def v1RecognizingRequest : TranscriptEventRequest :=
  { Kind := some "Recognizing", Text := some "hello wor", TsUtc := some "t0",
    Details := some "retrying" }

/-- C9 witness: the amended mapping applied to a concrete legacy event. -/
theorem claim_C9_witness :
    (normalizeV1ToV2 v1RecognizingRequest {} "now0").1.event_type = some "partial" ∧
    (normalizeV1ToV2 v1RecognizingRequest {} "now0").1.metadata =
      some (.obj "raw_response" (.obj "error_details" (.str "retrying"))) :=
  ⟨(claim_C9 v1RecognizingRequest {} "now0" "Recognizing" rfl).2.1 (by decide),
   (claim_C9 v1RecognizingRequest {} "now0" "Recognizing" rfl).2.2.2.2.2.2.2.2.2.1
     "retrying" rfl (by decide)⟩

/-! ## C7 — load error semantics -/

/-- C7: `load` returns null exactly when no file for the session exists;
when the file exists but is not valid JSON, or fails schema validation
after the non-schema `_meta` block is stripped, it raises a
distinguishable read-error — never null and never a default document. -/
theorem claim_C7 (store : OutputStore) (sid now : String) :
    (dictGet store sid = none → loadAnalysis store sid now = .ok none) ∧
    (dictGet store sid = some .malformed →
      loadAnalysis store sid now = .error (.readError "invalid JSON")) ∧
    (∀ d, dictGet store sid = some (.doc d) →
      validateSessionAnalysis { d with meta := none } now = none →
      loadAnalysis store sid now = .error (.readError "validation failed")) ∧
    (∀ d a, dictGet store sid = some (.doc d) →
      validateSessionAnalysis { d with meta := none } now = some a →
      loadAnalysis store sid now = .ok (some a)) := by
  refine ⟨?_, ?_, ?_, ?_⟩
  · intro h
    simp [loadAnalysis, h]
  · intro h
    simp [loadAnalysis, h]
  · intro d h hv
    simp [loadAnalysis, h, hv]
  · intro d a h hv
    simp [loadAnalysis, h, hv]

/-- A store with one unparsable file and one file that parses but fails
schema validation (required `candidate_name`/`started_at` missing). -/
def brokenStoreFixture : OutputStore :=
  [("s1", .malformed), ("s2", .doc { session_id := some "s2" })]

/-- C7 witness: absent file → null; malformed and schema-invalid files →
read-errors. -/
theorem claim_C7_witness :
    (loadAnalysis brokenStoreFixture "s0" "n0" = .ok none) ∧
    (loadAnalysis brokenStoreFixture "s1" "n0" = .error (.readError "invalid JSON")) ∧
    (loadAnalysis brokenStoreFixture "s2" "n0" =
      .error (.readError "validation failed")) :=
  ⟨(claim_C7 brokenStoreFixture "s0" "n0").1 (by decide),
   (claim_C7 brokenStoreFixture "s1" "n0").2.1 (by decide),
   (claim_C7 brokenStoreFixture "s2" "n0").2.2.1 { session_id := some "s2" }
     (by decide) (by decide)⟩

/-! ## C6 — round-trip persistence and append semantics -/

theorem scoreInRange_iff (q : ℚ) : scoreInRange q = true ↔ 0 ≤ q ∧ q ≤ 1 := by
  simp [scoreInRange]

/-- Validating a dumped item recovers the item (scores are in range at the
pydantic boundary). -/
theorem validateAnalysisItem_dump (i : AnalysisItem) (now : String)
    (hr : 0 ≤ i.relevance_score ∧ i.relevance_score ≤ 1)
    (hc : 0 ≤ i.clarity_score ∧ i.clarity_score ≤ 1) :
    validateAnalysisItem (dumpAnalysisItem i) now = some i := by
  simp [validateAnalysisItem, dumpAnalysisItem, scoreInRange_iff, hr, hc]

theorem optionMapList_validate_dump (items : List AnalysisItem) (now : String)
    (h : ∀ i ∈ items, (0 ≤ i.relevance_score ∧ i.relevance_score ≤ 1) ∧
      (0 ≤ i.clarity_score ∧ i.clarity_score ≤ 1)) :
    optionMapList (fun r => validateAnalysisItem r now)
      (items.map dumpAnalysisItem) = some items := by
  induction items with
  | nil => simp [optionMapList]
  | cons a as ih =>
      have ha := h a (by simp)
      have has : ∀ i ∈ as, (0 ≤ i.relevance_score ∧ i.relevance_score ≤ 1) ∧
          (0 ≤ i.clarity_score ∧ i.clarity_score ≤ 1) := by
        intro i hi
        exact h i (by simp [hi])
      simp [optionMapList, validateAnalysisItem_dump a now ha.1 ha.2, ih has]

/-- The mean of a non-empty list of rationals in `[0,1]` is in `[0,1]`. -/
theorem rat_mean_bounds (l : List ℚ) (h : ∀ x ∈ l, 0 ≤ x ∧ x ≤ 1) (hne : l ≠ []) :
    0 ≤ l.sum / (l.length : ℚ) ∧ l.sum / (l.length : ℚ) ≤ 1 := by
  have hlen : 0 < (l.length : ℚ) := by
    have : 0 < l.length := List.length_pos.mpr hne
    exact_mod_cast this
  constructor
  · apply div_nonneg
    · exact List.sum_nonneg (fun x hx => (h x hx).1)
    · exact le_of_lt hlen
  · rw [div_le_one hlen]
    calc l.sum ≤ l.length • (1 : ℚ) :=
          List.sum_le_card_nsmul l 1 (fun x hx => (h x hx).2)
      _ = (l.length : ℚ) := by simp

/-- Validating a dumped session document (with `_meta` stripped) recovers
the document. -/
theorem validateSessionAnalysis_dump (a : SessionAnalysis) (mb : MetaBlock)
    (now' : String)
    (hitems : ∀ i ∈ a.analysis_items, (0 ≤ i.relevance_score ∧ i.relevance_score ≤ 1) ∧
      (0 ≤ i.clarity_score ∧ i.clarity_score ≤ 1))
    (hov : optScoreOk a.overall_relevance = true)
    (hoc : optScoreOk a.overall_clarity = true) :
    validateSessionAnalysis { dumpSessionAnalysis a mb with meta := none } now' =
      some a := by
  simp [validateSessionAnalysis, dumpSessionAnalysis,
    optionMapList_validate_dump a.analysis_items now' hitems, hov, hoc]

/-- Lemma: `compute_overall_scores` leaves the items untouched and sets the
aggregates to count and arithmetic means (null on empty). -/
theorem computeOverallScores_spec (a : SessionAnalysis) :
    (a.computeOverallScores).analysis_items = a.analysis_items ∧
    (a.computeOverallScores).total_responses_analyzed = (a.analysis_items.length : Int) ∧
    (a.computeOverallScores).overall_relevance =
      (if a.analysis_items.isEmpty then none
       else some (sumRelevance a.analysis_items / (a.analysis_items.length : ℚ))) ∧
    (a.computeOverallScores).overall_clarity =
      (if a.analysis_items.isEmpty then none
       else some (sumClarity a.analysis_items / (a.analysis_items.length : ℚ))) := by
  by_cases h : a.analysis_items.isEmpty
  · have h' : a.analysis_items = [] := by simpa [List.isEmpty_iff] using h
    simp [SessionAnalysis.computeOverallScores, h, h']
  · simp [SessionAnalysis.computeOverallScores, h]

/-- The overall scores computed by `compute_overall_scores` pass the
pydantic range checks when the item scores are in range. -/
theorem computeOverallScores_in_range (a : SessionAnalysis)
    (hitems : ∀ i ∈ a.analysis_items, (0 ≤ i.relevance_score ∧ i.relevance_score ≤ 1) ∧
      (0 ≤ i.clarity_score ∧ i.clarity_score ≤ 1)) :
    optScoreOk (a.computeOverallScores).overall_relevance = true ∧
    optScoreOk (a.computeOverallScores).overall_clarity = true := by
  obtain ⟨-, -, hrel, hcla⟩ := computeOverallScores_spec a
  by_cases h : a.analysis_items.isEmpty
  · rw [hrel, hcla]
    simp [h, optScoreOk]
  · have hne : a.analysis_items ≠ [] := by
      simpa [List.isEmpty_iff] using h
    have hne' : a.analysis_items.map (·.relevance_score) ≠ [] := by simpa using hne
    have hne'' : a.analysis_items.map (·.clarity_score) ≠ [] := by simpa using hne
    have hrb := rat_mean_bounds (a.analysis_items.map (·.relevance_score))
      (by
        intro x hx
        obtain ⟨i, hi, rfl⟩ := List.mem_map.mp hx
        exact (hitems i hi).1) hne'
    have hcb := rat_mean_bounds (a.analysis_items.map (·.clarity_score))
      (by
        intro x hx
        obtain ⟨i, hi, rfl⟩ := List.mem_map.mp hx
        exact (hitems i hi).2) hne''
    rw [hrel, hcla]
    simp only [h, if_false]
    constructor
    · simpa [optScoreOk, scoreInRange_iff, sumRelevance] using hrb
    · simpa [optScoreOk, scoreInRange_iff, sumClarity] using hcb

/-- The raw document currently stored for a session, if any parses. -/
def storedDoc (store : OutputStore) (sid : String) : Option RawSessionAnalysis :=
  match dictGet store sid with
  | some (.doc d) => some d
  | _ => none

/-- Any document written back by the append body carries the appended item
list together with `total = count` and `overall = arithmetic mean`. -/
theorem appendWithDoc_spec (store : OutputStore) (sid : String) (item : AnalysisItem)
    (cs : Option (List SnapshotRow)) (t : String) (data : RawSessionAnalysis)
    (st' : OutputStore)
    (happ : appendWithDoc store sid item cs t data = .ok st') :
    ∀ d, storedDoc st' sid = some d →
      ∃ rawItems, d.analysis_items = some rawItems ∧
        d.total_responses_analyzed = some (rawItems.length : Int) ∧
        (∀ rels clas,
          optionMapList (fun r => r.relevance_score) rawItems = some rels →
          optionMapList (fun r => r.clarity_score) rawItems = some clas →
          d.overall_relevance = some (rels.sum / (rawItems.length : ℚ)) ∧
          d.overall_clarity = some (clas.sum / (rawItems.length : ℚ))) := by
  intro d hd
  unfold appendWithDoc at happ
  cases hia : data.analysis_items with
  | none => rw [hia] at happ; simp at happ
  | some items0 =>
      rw [hia] at happ
      simp only [show (items0 ++ [dumpAnalysisItem item]).isEmpty = false by simp] at happ
      cases hrels : optionMapList (fun r => r.relevance_score)
          (items0 ++ [dumpAnalysisItem item]) with
      | none => rw [hrels] at happ; simp at happ
      | some rels0 =>
          cases hclas : optionMapList (fun r => r.clarity_score)
              (items0 ++ [dumpAnalysisItem item]) with
          | none => rw [hrels, hclas] at happ; simp at happ
          | some clas0 =>
              rw [hrels, hclas] at happ
              cases hmeta : data.meta with
              | none => rw [hmeta] at happ; simp at happ
              | some mb =>
                  rw [hmeta] at happ
                  have hst' := (Except.ok.inj happ).symm
                  subst hst'
                  simp only [storedDoc, dictGet_dictInsert_self] at hd
                  have hdd := Option.some.inj hd
                  subst hdd
                  refine ⟨items0 ++ [dumpAnalysisItem item], rfl, rfl, ?_⟩
                  intro rels clas hr hc
                  have hr' : some rels0 = some rels := by rw [← hrels, ← hr]
                  have hc' : some clas0 = some clas := by rw [← hclas, ← hc]
                  rw [← Option.some.inj hr', ← Option.some.inj hc']
                  exact ⟨rfl, rfl⟩

/-- C6: writing a `SessionAnalysis` then loading it reproduces the analysis
items in order, with recomputed aggregates equal to count and arithmetic
means (null on empty); every document written by `append` carries
`total = count` and `overall = mean` of its items; and appending three
items to a fresh session id produces a document with
`total_responses_analyzed == 3`, the items in enqueue order, and the means
of the three scores. -/
theorem claim_C6 (store : OutputStore) (sid : String) (analysis : SessionAnalysis)
    (i1 i2 i3 : AnalysisItem) (cs1 cs2 cs3 : Option (List SnapshotRow))
    (now now' t1 t2 t3 : String)
    (hrange : ∀ i ∈ analysis.analysis_items,
      (0 ≤ i.relevance_score ∧ i.relevance_score ≤ 1) ∧
      (0 ≤ i.clarity_score ∧ i.clarity_score ≤ 1))
    (hfresh : dictGet store sid = none) :
    (loadAnalysis (writeAnalysis store sid analysis now).2 sid now' =
        .ok (some analysis.computeOverallScores) ∧
      (analysis.computeOverallScores).analysis_items = analysis.analysis_items ∧
      (analysis.computeOverallScores).total_responses_analyzed =
        (analysis.analysis_items.length : Int) ∧
      (analysis.computeOverallScores).overall_relevance =
        (if analysis.analysis_items.isEmpty then none
         else some (sumRelevance analysis.analysis_items /
           (analysis.analysis_items.length : ℚ))) ∧
      (analysis.computeOverallScores).overall_clarity =
        (if analysis.analysis_items.isEmpty then none
         else some (sumClarity analysis.analysis_items /
           (analysis.analysis_items.length : ℚ)))) ∧
    (∀ (s0 : OutputStore) (sid' : String) (item : AnalysisItem)
        (cs : Option (List SnapshotRow)) (t : String) (st' : OutputStore),
      appendItem s0 sid' item cs t = .ok st' →
      ∀ d, storedDoc st' sid' = some d →
        ∃ rawItems, d.analysis_items = some rawItems ∧
          d.total_responses_analyzed = some (rawItems.length : Int) ∧
          (∀ rels clas,
            optionMapList (fun r => r.relevance_score) rawItems = some rels →
            optionMapList (fun r => r.clarity_score) rawItems = some clas →
            d.overall_relevance = some (rels.sum / (rawItems.length : ℚ)) ∧
            d.overall_clarity = some (clas.sum / (rawItems.length : ℚ)))) ∧
    ((appendItem store sid i1 cs1 t1 >>= fun s1 =>
      appendItem s1 sid i2 cs2 t2 >>= fun s2 =>
      appendItem s2 sid i3 cs3 t3).map (fun st =>
        (storedDoc st sid).map (fun d =>
          (d.analysis_items, d.total_responses_analyzed,
            d.overall_relevance, d.overall_clarity))) =
      .ok (some
        (some [dumpAnalysisItem i1, dumpAnalysisItem i2, dumpAnalysisItem i3],
         some 3,
         some (([i1.relevance_score, i2.relevance_score, i3.relevance_score] : List ℚ).sum / 3),
         some (([i1.clarity_score, i2.clarity_score, i3.clarity_score] : List ℚ).sum / 3)))) := by
  refine ⟨?_, ?_, ?_⟩
  · have hspec := computeOverallScores_spec analysis
    have hcr := computeOverallScores_in_range analysis hrange
    have hitems_a : ∀ i ∈ (analysis.computeOverallScores).analysis_items,
        (0 ≤ i.relevance_score ∧ i.relevance_score ≤ 1) ∧
        (0 ≤ i.clarity_score ∧ i.clarity_score ≤ 1) := by
      rw [hspec.1]; exact hrange
    have hval := validateSessionAnalysis_dump analysis.computeOverallScores
      { written_at := some now, version := some "1.0" } now' hitems_a hcr.1 hcr.2
    refine ⟨?_, hspec.1, hspec.2.1, ?_, ?_⟩
    · simp [writeAnalysis, loadAnalysis, dictGet_dictInsert_self, hval]
    · rw [hspec.2.2.1]
    · rw [hspec.2.2.2]
  · intro s0 sid' item cs t st' happ d hd
    cases hds : dictGet s0 sid' with
    | none =>
        rw [appendItem, hds] at happ
        exact appendWithDoc_spec _ _ _ _ _ _ _ happ d hd
    | some fc =>
        cases fc with
        | malformed => rw [appendItem, hds] at happ; simp at happ
        | doc d0 =>
            rw [appendItem, hds] at happ
            exact appendWithDoc_spec _ _ _ _ _ _ _ happ d hd
  · simp [appendItem, hfresh, appendWithDoc, minimalRawDoc,
      dictGet_dictInsert_self, storedDoc, bind, Except.bind, Except.map,
      optionMapList, dumpAnalysisItem]

/-- Concrete analysis items (scores 0.8/0.9, 0.6/0.5, 0.5/1). -/
def itemFixtureA : AnalysisItem :=
  { response_id := "resp_001", timestamp_utc := "ta",
    response_text := "answer one", relevance_score := 4/5, clarity_score := 9/10 }

def itemFixtureB : AnalysisItem :=
  { response_id := "resp_002", timestamp_utc := "tb",
    response_text := "answer two", relevance_score := 3/5, clarity_score := 1/2 }

def itemFixtureC : AnalysisItem :=
  { response_id := "resp_003", timestamp_utc := "tc",
    response_text := "answer three", relevance_score := 1/2, clarity_score := 1 }

/-- A session analysis with the spec's example scores 0.8 and 0.6. -/
def analysisFixture : SessionAnalysis :=
  { session_id := "int_20260131_103000_a1b2c3", candidate_name := "Jane Doe",
    started_at := "t1", analysis_items := [itemFixtureA, itemFixtureB] }

/-- C6 witness: write-then-load round-trips the fixture (with
`overall_relevance = 0.70`, matching the spec's 0.8/0.6 example), and the
three-append chain on a fresh id yields `total == 3` with items in
enqueue order. -/
theorem claim_C6_witness :
    (loadAnalysis (writeAnalysis [] "fresh_1" analysisFixture "tw").2 "fresh_1" "tl" =
      .ok (some analysisFixture.computeOverallScores)) ∧
    (analysisFixture.computeOverallScores.overall_relevance = some (7/10)) ∧
    ((appendItem [] "fresh_1" itemFixtureA none "t1" >>= fun s1 =>
      appendItem s1 "fresh_1" itemFixtureB none "t2" >>= fun s2 =>
      appendItem s2 "fresh_1" itemFixtureC none "t3").map (fun st =>
        (storedDoc st "fresh_1").map (fun d =>
          (d.analysis_items, d.total_responses_analyzed,
            d.overall_relevance, d.overall_clarity))) =
      .ok (some
        (some [dumpAnalysisItem itemFixtureA, dumpAnalysisItem itemFixtureB,
               dumpAnalysisItem itemFixtureC],
         some 3,
         some (([itemFixtureA.relevance_score, itemFixtureB.relevance_score,
                 itemFixtureC.relevance_score] : List ℚ).sum / 3),
         some (([itemFixtureA.clarity_score, itemFixtureB.clarity_score,
                 itemFixtureC.clarity_score] : List ℚ).sum / 3)))) := by
  have h := claim_C6 [] "fresh_1" analysisFixture itemFixtureA itemFixtureB itemFixtureC
    none none none "tw" "tl" "t1" "t2" "t3"
    (by
      intro i hi
      simp only [analysisFixture, List.mem_cons, List.mem_singleton,
        List.not_mem_nil, or_false] at hi
      rcases hi with rfl | rfl <;> norm_num [itemFixtureA, itemFixtureB])
    rfl
  refine ⟨h.1.1, ?_, h.2.2⟩
  have hspec := computeOverallScores_spec analysisFixture
  rw [hspec.2.2.1]
  norm_num [analysisFixture, sumRelevance, itemFixtureA, itemFixtureB]

end TeamsBot

